import Mathlib

/-!
Shallow embedding of `python_order_service.py` (remardo/tg-crypto-signal):
a thin adapter that forwards order placement / cancellation requests to an
external BingX exchange client and normalizes the responses into
success/failure envelopes, plus the command-line dispatcher in `main`.

Modelling conventions:
* Python scalar values (as they appear in JSON order requests and client
  responses) are `PyVal`; Python dicts are association lists with
  first-match lookup (Python dicts have unique keys, so this coincides).
* The external exchange client (`self.client.perpetual_swap_trade`) is
  an opaque collaborator: a function parameter returning
  `Except String Resp`, where `Except.error` models a raised exception
  (stringified, as `str(e)` in the Python handlers would see it) and a
  response is either `None` or a dict.
* `try/except` boundaries become total functions: everything that can
  raise is threaded through `Except` and caught where Python catches it.
-/

set_option autoImplicit false

namespace OrderService

/-- Python scalar values flowing through order requests and responses. -/
inductive PyVal where
  | none : PyVal
  | bool : Bool → PyVal
  | int : Int → PyVal
  | str : String → PyVal
  deriving DecidableEq, Repr

/-- A Python dict with string keys and scalar values. -/
abbrev Dict := List (String × PyVal)

/-- A client response: Python `None` or a dict (the only shapes the
adapter's truthiness / `in` checks are exercised with). -/
abbrev Resp := Option Dict

/-- Values stored in the result envelopes: either a scalar copied from a
request/response, or the raw client response stored under `details`. -/
inductive EVal where
  | val : PyVal → EVal
  | raw : Resp → EVal
  deriving DecidableEq, Repr

/-- A result envelope, as returned by `place_order` / `cancel_order`. -/
abbrev Envelope := List (String × EVal)

/-- First-match key lookup on an association list: Python `d[k]` /
`k in d` / `d.get(k)` are all expressed through this. -/
def getKey {α : Type} (d : List (String × α)) (k : String) : Option α :=
  match d with
  | [] => Option.none
  | (k2, v) :: rest => if k2 = k then Option.some v else getKey rest k

/-- Number of entries carrying key `k`. -/
def countKey {α : Type} (d : List (String × α)) (k : String) : Nat :=
  (d.filter (fun p => p.1 == k)).length

/-- Python truthiness for the scalar values. -/
def truthy : PyVal → Bool
  | PyVal.none => false
  | PyVal.bool b => b
  | PyVal.int n => n != 0
  | PyVal.str s => s != ""

/-- Python `str(...)` on the scalar values. -/
def pyStr : PyVal → String
  | PyVal.none => "None"
  | PyVal.bool true => "True"
  | PyVal.bool false => "False"
  | PyVal.int n => toString n
  | PyVal.str s => s

/-- An apostrophe character, as a string. -/
def sq : String := String.mk [Char.ofNat 39]

/-- Python `str(KeyError(k))`: the missing key wrapped in apostrophes. -/
def keyErrorMsg (k : String) : String := sq ++ k ++ sq

/-- ASCII lowercasing of one character, as `str.lower()` does on the
ASCII values flowing through this adapter. -/
def asciiLower (c : Char) : Char :=
  if 65 ≤ c.toNat ∧ c.toNat ≤ 90 then Char.ofNat (c.toNat + 32) else c

/-- Python `s.lower()` (on the ASCII strings this adapter produces). -/
def pyLower (s : String) : String := String.mk (s.data.map asciiLower)

/-- Python `d.get(k)`: the value, or `None` when absent. -/
def pyGet (d : Dict) (k : String) : PyVal := (getKey d k).getD PyVal.none

/-- Python `d.get(k, dflt)`. -/
def pyGetD (d : Dict) (k : String) (dflt : PyVal) : PyVal :=
  (getKey d k).getD dflt

/-- `_get_position_mode`: the body of the `try` block, which just returns
the hardcoded default (the real query is unimplemented in the source). -/
def position_mode_body (_sub_account_id : Option String) :
    Except String String :=
  Except.ok "one-way"

/-- The `except` handler around the position-mode body: any exception is
swallowed and the default `one-way` is returned. -/
def position_mode_guard (body : Except String String) : String :=
  match body with
  | Except.ok m => m
  | Except.error _ => "one-way"

/-- `PythonBingXOrderService._get_position_mode`. -/
def get_position_mode (sub_account_id : Option String) : String :=
  position_mode_guard (position_mode_body sub_account_id)

/-- The required-parameter block of `place_order`: the dict literal
`{'symbol': ..., 'side': ..., 'type': ..., 'quantity': str(...)}` whose
key lookups raise `KeyError` (here `Except.error`) on the first missing
key, evaluated in source order. -/
def requiredParams (order_data : Dict) :
    Except String (List (String × PyVal)) :=
  match getKey order_data "symbol" with
  | Option.none => Except.error (keyErrorMsg "symbol")
  | Option.some sym =>
    match getKey order_data "side" with
    | Option.none => Except.error (keyErrorMsg "side")
    | Option.some side =>
      match getKey order_data "type" with
      | Option.none => Except.error (keyErrorMsg "type")
      | Option.some ty =>
        match getKey order_data "quantity" with
        | Option.none => Except.error (keyErrorMsg "quantity")
        | Option.some qty =>
          Except.ok [("symbol", sym), ("side", side), ("type", ty),
                     ("quantity", PyVal.str (pyStr qty))]

/-- One optional-parameter block:
`if key in order_data and order_data[key]: params[pkey] = conv(...)`. -/
def addOpt (order_data : Dict) (key pkey : String) (conv : PyVal → PyVal)
    (params : List (String × PyVal)) : List (String × PyVal) :=
  match getKey order_data key with
  | Option.some v => if truthy v then params ++ [(pkey, conv v)] else params
  | Option.none => params

/-- Conversion `str(...)` used for price-like optional fields. -/
def strConv (v : PyVal) : PyVal := PyVal.str (pyStr v)

/-- Identity conversion for fields copied verbatim. -/
def idConv (v : PyVal) : PyVal := v

/-- The `reduceOnly` block: forwarded (lowercased via `str(...).lower()`)
only when supplied non-`None` and the resolved position mode is not
`hedge`. -/
def addReduceOnly (order_data : Dict) (sub_account_id : Option String)
    (params : List (String × PyVal)) : List (String × PyVal) :=
  match getKey order_data "reduceOnly" with
  | Option.some v =>
    if v ≠ PyVal.none then
      if get_position_mode sub_account_id ≠ "hedge" then
        params ++ [("reduceOnly", PyVal.str (pyLower (pyStr v)))]
      else params
    else params
  | Option.none => params

/-- The whole parameter-construction phase of `place_order`, in source
order; fails with a `KeyError` message when a required field is absent. -/
def buildParams (order_data : Dict) (sub_account_id : Option String) :
    Except String (List (String × PyVal)) :=
  match requiredParams order_data with
  | Except.error e => Except.error e
  | Except.ok ps =>
    Except.ok (addReduceOnly order_data sub_account_id
      (addOpt order_data "clientOrderId" "newClientOrderId" idConv
        (addOpt order_data "workingType" "workingType" idConv
          (addOpt order_data "positionSide" "positionSide" idConv
            (addOpt order_data "stopPrice" "stopPrice" strConv
              (addOpt order_data "price" "price" strConv ps))))))

/-- Python `result and (then orderId in result)`: truthiness of the
response followed by the key test, short-circuited as in the source. -/
def respOk (r : Resp) : Bool :=
  match r with
  | Option.none => false
  | Option.some d => !d.isEmpty && (getKey d "orderId").isSome

/-- The success envelope built by `place_order` from a response dict. -/
def successEnvelope (d : Dict) : Envelope :=
  [("success", EVal.val (PyVal.bool true)),
   ("orderId", EVal.val (pyGet d "orderId")),
   ("clientOrderId", EVal.val (pyGet d "clientOrderId")),
   ("status", EVal.val (pyGetD d "status" (PyVal.str "NEW"))),
   ("symbol", EVal.val (pyGet d "symbol")),
   ("side", EVal.val (pyGet d "side")),
   ("positionSide", EVal.val (pyGet d "positionSide"))]

/-- The failure envelope of `place_order` for an identifier-less
response. -/
def placeFailEnvelope (r : Resp) : Envelope :=
  [("success", EVal.val (PyVal.bool false)),
   ("error", EVal.val (PyVal.str "Order placement failed")),
   ("details", EVal.raw r)]

/-- The envelope produced by the broad `except` handlers: the stringified
exception under `error`. -/
def exceptEnvelope (e : String) : Envelope :=
  [("success", EVal.val (PyVal.bool false)),
   ("error", EVal.val (PyVal.str e))]

/-- `PythonBingXOrderService.place_order`, with the opaque exchange
client passed as a function (`self.client.perpetual_swap_trade.order`).
Every exception raised during parameter construction or the client call
is caught and converted to `exceptEnvelope`. -/
def place_order (client : List (String × PyVal) → Except String Resp)
    (order_data : Dict) (sub_account_id : Option String) : Envelope :=
  match buildParams order_data sub_account_id with
  | Except.error e => exceptEnvelope e
  | Except.ok params =>
    match client params with
    | Except.error e => exceptEnvelope e
    | Except.ok result =>
      if respOk result then successEnvelope (result.getD [])
      else placeFailEnvelope result

/-- The success envelope built by `cancel_order`. -/
def cancelSuccessEnvelope (d : Dict) : Envelope :=
  [("success", EVal.val (PyVal.bool true)),
   ("orderId", EVal.val (pyGet d "orderId")),
   ("status", EVal.val (pyGet d "status"))]

/-- The failure envelope of `cancel_order` for an identifier-less
response. -/
def cancelFailEnvelope (r : Resp) : Envelope :=
  [("success", EVal.val (PyVal.bool false)),
   ("error", EVal.val (PyVal.str "Cancel failed")),
   ("details", EVal.raw r)]

/-- `PythonBingXOrderService.cancel_order`, with the opaque client call
`self.client.perpetual_swap_trade.cancel_order(symbol=..., orderId=...)`
passed as a function of `(symbol, orderId)`. -/
def cancel_order (client : String → String → Except String Resp)
    (order_id symbol : String) (_sub_account_id : Option String) :
    Envelope :=
  match client symbol order_id with
  | Except.error e => exceptEnvelope e
  | Except.ok result =>
    if respOk result then cancelSuccessEnvelope (result.getD [])
    else cancelFailEnvelope result

/-- Outcome of one run of the CLI `main`: a usage/unknown-command message
with exit code 1, a printed JSON envelope, or an uncaught exception
propagating out of `main`. -/
inductive CliOutcome where
  | usage : String → CliOutcome
  | printed : Envelope → CliOutcome
  | raised : String → CliOutcome
  deriving DecidableEq, Repr

/-- Whether the outcome is a printed envelope. -/
def isPrinted : CliOutcome → Bool
  | CliOutcome.printed _ => true
  | _ => false

/-- Whether the outcome is a usage-message exit. -/
def isUsage : CliOutcome → Bool
  | CliOutcome.usage _ => true
  | _ => false

/-- Whether the outcome is an uncaught raised exception. -/
def isRaised : CliOutcome → Bool
  | CliOutcome.raised _ => true
  | _ => false

/-- The CLI `main`: dispatches on `sys.argv`. `json.loads` is the opaque
standard-library parser, passed as a fallible function; note that in the
source it is called outside any `try`, so its failure propagates out of
`main` uncaught. -/
def main_run (placeClient : List (String × PyVal) → Except String Resp)
    (cancelClient : String → String → Except String Resp)
    (json_loads : String → Except String Dict)
    (argv : List String) : CliOutcome :=
  match argv with
  | _prog :: command :: rest =>
    if command = "place_order" then
      match rest with
      | payload :: _ =>
        match json_loads payload with
        | Except.error e => CliOutcome.raised e
        | Except.ok order_data =>
          CliOutcome.printed (place_order placeClient order_data Option.none)
      | [] =>
        CliOutcome.usage
          "Usage: python python_order_service.py place_order <order_json>"
    else if command = "cancel_order" then
      match rest with
      | order_id :: symbol :: _ =>
        CliOutcome.printed
          (cancel_order cancelClient order_id symbol Option.none)
      | _ =>
        CliOutcome.usage
          "Usage: python python_order_service.py cancel_order <order_id> <symbol>"
    else CliOutcome.usage ("Unknown command: " ++ command)
  | _ => CliOutcome.usage "Usage: python python_order_service.py <command> <args>"

/-! ### Supporting lemmas about parameter construction -/

theorem getKey_append {α : Type} (ps qs : List (String × α)) (k : String) :
    getKey (ps ++ qs) k =
      match getKey ps k with
      | Option.some v => Option.some v
      | Option.none => getKey qs k := by
  induction ps with
  | nil => simp [getKey]
  | cons p rest ih =>
    obtain ⟨k2, v⟩ := p
    by_cases h : k2 = k <;> simp [getKey, h, ih]

theorem getKey_singleton_ne {α : Type} (k2 k : String) (v : α)
    (h : k2 ≠ k) : getKey [(k2, v)] k = Option.none := by
  simp [getKey, h]

theorem getKey_addOpt_ne (order_data : Dict) (key pkey k : String)
    (conv : PyVal → PyVal) (ps : List (String × PyVal)) (h : pkey ≠ k) :
    getKey (addOpt order_data key pkey conv ps) k = getKey ps k := by
  unfold addOpt
  cases getKey order_data key with
  | none => rfl
  | some v =>
    by_cases ht : truthy v
    · simp only [ht, if_true, getKey_append, getKey_singleton_ne _ _ _ h]
      cases getKey ps k <;> rfl
    · simp [ht]

theorem getKey_addReduceOnly_ne (order_data : Dict)
    (sub_account_id : Option String) (k : String)
    (ps : List (String × PyVal)) (h : k ≠ "reduceOnly") :
    getKey (addReduceOnly order_data sub_account_id ps) k = getKey ps k := by
  unfold addReduceOnly
  cases getKey order_data "reduceOnly" with
  | none => rfl
  | some v =>
    by_cases hv : v = PyVal.none
    · simp [hv]
    · simp only [hv, ne_eq, not_false_eq_true, if_true]
      by_cases hm : get_position_mode sub_account_id = "hedge"
      · simp [hm]
      · simp only [hm, not_false_eq_true, if_true,
          getKey_append, getKey_singleton_ne _ _ _ (Ne.symm h)]
        cases getKey ps k <;> rfl

theorem requiredParams_keys (order_data : Dict)
    (ps : List (String × PyVal)) (k : String)
    (hps : requiredParams order_data = Except.ok ps)
    (h1 : k ≠ "symbol") (h2 : k ≠ "side") (h3 : k ≠ "type")
    (h4 : k ≠ "quantity") : getKey ps k = Option.none := by
  unfold requiredParams at hps
  cases hsym : getKey order_data "symbol" with
  | none => rw [hsym] at hps; exact absurd hps (by simp)
  | some sym =>
  cases hside : getKey order_data "side" with
  | none => rw [hsym, hside] at hps; exact absurd hps (by simp)
  | some side =>
  cases hty : getKey order_data "type" with
  | none => rw [hsym, hside, hty] at hps; exact absurd hps (by simp)
  | some ty =>
  cases hq : getKey order_data "quantity" with
  | none => rw [hsym, hside, hty, hq] at hps; exact absurd hps (by simp)
  | some qty =>
    rw [hsym, hside, hty, hq] at hps
    cases hps
    simp [getKey, Ne.symm h1, Ne.symm h2, Ne.symm h3, Ne.symm h4]

theorem addOpt_skip (order_data : Dict) (key pkey : String)
    (conv : PyVal → PyVal) (ps : List (String × PyVal))
    (h : ∀ v, getKey order_data key = Option.some v → truthy v = false) :
    addOpt order_data key pkey conv ps = ps := by
  unfold addOpt
  cases hv : getKey order_data key with
  | none => rfl
  | some v => simp [h v hv]

theorem addOpt_add (order_data : Dict) (key pkey : String)
    (conv : PyVal → PyVal) (ps : List (String × PyVal)) (v : PyVal)
    (hv : getKey order_data key = Option.some v) (ht : truthy v = true) :
    addOpt order_data key pkey conv ps = ps ++ [(pkey, conv v)] := by
  simp [addOpt, hv, ht]

/-- The five optional-parameter stages of `place_order`, in source
order. -/
def optStages (order_data : Dict) (ps : List (String × PyVal)) :
    List (String × PyVal) :=
  addOpt order_data "clientOrderId" "newClientOrderId" idConv
    (addOpt order_data "workingType" "workingType" idConv
      (addOpt order_data "positionSide" "positionSide" idConv
        (addOpt order_data "stopPrice" "stopPrice" strConv
          (addOpt order_data "price" "price" strConv ps))))

theorem buildParams_shape (order_data : Dict) (sub_account_id : Option String)
    (ps : List (String × PyVal))
    (h : buildParams order_data sub_account_id = Except.ok ps) :
    ∃ ps0, requiredParams order_data = Except.ok ps0 ∧
      ps = addReduceOnly order_data sub_account_id
        (optStages order_data ps0) := by
  unfold buildParams at h
  cases hr : requiredParams order_data with
  | error e => rw [hr] at h; exact absurd h (by simp)
  | ok ps0 =>
    rw [hr] at h
    exact ⟨ps0, rfl, by injection h with h2; exact h2.symm⟩

theorem getKey_optStages_ne (order_data : Dict) (k : String)
    (ps : List (String × PyVal))
    (h1 : k ≠ "newClientOrderId") (h2 : k ≠ "workingType")
    (h3 : k ≠ "positionSide") (h4 : k ≠ "stopPrice") (h5 : k ≠ "price") :
    getKey (optStages order_data ps) k = getKey ps k := by
  unfold optStages
  rw [getKey_addOpt_ne _ _ _ _ _ _ (Ne.symm h1),
      getKey_addOpt_ne _ _ _ _ _ _ (Ne.symm h2),
      getKey_addOpt_ne _ _ _ _ _ _ (Ne.symm h3),
      getKey_addOpt_ne _ _ _ _ _ _ (Ne.symm h4),
      getKey_addOpt_ne _ _ _ _ _ _ (Ne.symm h5)]

/-- Full characterization of the `reduceOnly` entry of the parameters
sent to the exchange client. -/
theorem buildParams_reduceOnly (order_data : Dict)
    (sub_account_id : Option String) (ps : List (String × PyVal))
    (h : buildParams order_data sub_account_id = Except.ok ps) :
    getKey ps "reduceOnly" =
      match getKey order_data "reduceOnly" with
      | Option.some v =>
        if v ≠ PyVal.none ∧ get_position_mode sub_account_id ≠ "hedge"
        then Option.some (PyVal.str (pyLower (pyStr v)))
        else Option.none
      | Option.none => Option.none := by
  obtain ⟨ps0, hreq, hps⟩ := buildParams_shape _ _ _ h
  have hmid : getKey (optStages order_data ps0) "reduceOnly" = Option.none := by
    rw [getKey_optStages_ne _ _ _ (by decide) (by decide) (by decide)
      (by decide) (by decide)]
    exact requiredParams_keys _ _ _ hreq (by decide) (by decide) (by decide)
      (by decide)
  subst hps
  unfold addReduceOnly
  cases hv : getKey order_data "reduceOnly" with
  | none => simpa using hmid
  | some v =>
    by_cases hvn : v = PyVal.none
    · simpa [hvn] using hmid
    · by_cases hm : get_position_mode sub_account_id = "hedge"
      · simpa [hvn, hm] using hmid
      · simp only [hvn, hm, ne_eq, not_false_eq_true, if_true, and_self,
          getKey_append, hmid]
        simp [getKey]

/-- A falsy-valued optional field contributes no entry to the client
parameters: one conjunct per optional field of `place_order`. -/
theorem buildParams_falsy_omitted (order_data : Dict)
    (sub_account_id : Option String) (ps : List (String × PyVal))
    (h : buildParams order_data sub_account_id = Except.ok ps) :
    (∀ v, getKey order_data "price" = Option.some v → truthy v = false →
      getKey ps "price" = Option.none) ∧
    (∀ v, getKey order_data "stopPrice" = Option.some v → truthy v = false →
      getKey ps "stopPrice" = Option.none) ∧
    (∀ v, getKey order_data "positionSide" = Option.some v →
      truthy v = false → getKey ps "positionSide" = Option.none) ∧
    (∀ v, getKey order_data "workingType" = Option.some v →
      truthy v = false → getKey ps "workingType" = Option.none) ∧
    (∀ v, getKey order_data "clientOrderId" = Option.some v →
      truthy v = false → getKey ps "newClientOrderId" = Option.none) := by
  obtain ⟨ps0, hreq, hps⟩ := buildParams_shape _ _ _ h
  subst hps
  have hk := fun k h1 h2 h3 h4 =>
    requiredParams_keys order_data ps0 k hreq h1 h2 h3 h4
  refine ⟨?_, ?_, ?_, ?_, ?_⟩ <;> intro v hv ht
  · rw [getKey_addReduceOnly_ne _ _ _ _ (by decide)]
    unfold optStages
    rw [getKey_addOpt_ne _ _ _ _ _ _ (by decide),
        getKey_addOpt_ne _ _ _ _ _ _ (by decide),
        getKey_addOpt_ne _ _ _ _ _ _ (by decide),
        getKey_addOpt_ne _ _ _ _ _ _ (by decide),
        addOpt_skip _ _ _ _ _
          (fun w hw => by rw [hv] at hw; injection hw with e; rw [← e]; exact ht)]
    exact hk _ (by decide) (by decide) (by decide) (by decide)
  · rw [getKey_addReduceOnly_ne _ _ _ _ (by decide)]
    unfold optStages
    rw [getKey_addOpt_ne _ _ _ _ _ _ (by decide),
        getKey_addOpt_ne _ _ _ _ _ _ (by decide),
        getKey_addOpt_ne _ _ _ _ _ _ (by decide),
        addOpt_skip _ _ _ _ _
          (fun w hw => by rw [hv] at hw; injection hw with e; rw [← e]; exact ht),
        getKey_addOpt_ne _ _ _ _ _ _ (by decide)]
    exact hk _ (by decide) (by decide) (by decide) (by decide)
  · rw [getKey_addReduceOnly_ne _ _ _ _ (by decide)]
    unfold optStages
    rw [getKey_addOpt_ne _ _ _ _ _ _ (by decide),
        getKey_addOpt_ne _ _ _ _ _ _ (by decide),
        addOpt_skip _ _ _ _ _
          (fun w hw => by rw [hv] at hw; injection hw with e; rw [← e]; exact ht),
        getKey_addOpt_ne _ _ _ _ _ _ (by decide),
        getKey_addOpt_ne _ _ _ _ _ _ (by decide)]
    exact hk _ (by decide) (by decide) (by decide) (by decide)
  · rw [getKey_addReduceOnly_ne _ _ _ _ (by decide)]
    unfold optStages
    rw [getKey_addOpt_ne _ _ _ _ _ _ (by decide),
        addOpt_skip _ _ _ _ _
          (fun w hw => by rw [hv] at hw; injection hw with e; rw [← e]; exact ht),
        getKey_addOpt_ne _ _ _ _ _ _ (by decide),
        getKey_addOpt_ne _ _ _ _ _ _ (by decide),
        getKey_addOpt_ne _ _ _ _ _ _ (by decide)]
    exact hk _ (by decide) (by decide) (by decide) (by decide)
  · rw [getKey_addReduceOnly_ne _ _ _ _ (by decide)]
    unfold optStages
    rw [addOpt_skip _ _ _ _ _
          (fun w hw => by rw [hv] at hw; injection hw with e; rw [← e]; exact ht),
        getKey_addOpt_ne _ _ _ _ _ _ (by decide),
        getKey_addOpt_ne _ _ _ _ _ _ (by decide),
        getKey_addOpt_ne _ _ _ _ _ _ (by decide),
        getKey_addOpt_ne _ _ _ _ _ _ (by decide)]
    exact hk _ (by decide) (by decide) (by decide) (by decide)

/-! ### Claim theorems -/

/-- C6: for every input (including every sub-account id), the
position-mode resolver returns `one-way`; the exception handler around
its body also yields `one-way` on any exception. -/
theorem C6_position_mode_always_one_way :
    (∀ sub_account_id : Option String,
      get_position_mode sub_account_id = "one-way") ∧
    (∀ e : String, position_mode_guard (Except.error e) = "one-way") :=
  ⟨fun _ => rfl, fun _ => rfl⟩

theorem getKey_some_ne_nil {α : Type} (d : List (String × α)) (k : String)
    (v : α) (h : getKey d k = Option.some v) : d.isEmpty = false := by
  cases d with
  | nil => simp [getKey] at h
  | cons p rest => rfl

/-- C1: whenever the client response is a dict containing an `orderId`,
`place_order` returns the success envelope: `success=true`, `orderId`
copied from the response, `clientOrderId` from the response (`None` when
absent), and `status` from the response defaulting to `"NEW"`. -/
theorem C1_place_order_success
    (client : List (String × PyVal) → Except String Resp)
    (order_data : Dict) (sub_account_id : Option String)
    (ps : List (String × PyVal)) (d : Dict) (oid : PyVal)
    (h1 : buildParams order_data sub_account_id = Except.ok ps)
    (h2 : client ps = Except.ok (Option.some d))
    (h3 : getKey d "orderId" = Option.some oid) :
    place_order client order_data sub_account_id = successEnvelope d ∧
    getKey (place_order client order_data sub_account_id) "success" =
      Option.some (EVal.val (PyVal.bool true)) ∧
    getKey (place_order client order_data sub_account_id) "orderId" =
      Option.some (EVal.val oid) ∧
    getKey (place_order client order_data sub_account_id) "clientOrderId" =
      Option.some (EVal.val ((getKey d "clientOrderId").getD PyVal.none)) ∧
    getKey (place_order client order_data sub_account_id) "status" =
      Option.some (EVal.val ((getKey d "status").getD (PyVal.str "NEW"))) := by
  have hde : d.isEmpty = false := getKey_some_ne_nil _ _ _ h3
  have hmain : place_order client order_data sub_account_id =
      successEnvelope d := by
    simp [place_order, h1, h2, respOk, hde, h3]
  refine ⟨hmain, ?_, ?_, ?_, ?_⟩ <;> rw [hmain] <;>
    simp [successEnvelope, getKey, pyGet, pyGetD, h3]

def sampleOrder : Dict :=
  [("symbol", PyVal.str "BTC-USDT"), ("side", PyVal.str "BUY"),
   ("type", PyVal.str "MARKET"), ("quantity", PyVal.int 1)]

def sampleParams : List (String × PyVal) :=
  [("symbol", PyVal.str "BTC-USDT"), ("side", PyVal.str "BUY"),
   ("type", PyVal.str "MARKET"), ("quantity", PyVal.str "1")]

def sampleResp : Dict :=
  [("orderId", PyVal.str "123"), ("status", PyVal.str "FILLED")]

def sampleClient (_params : List (String × PyVal)) : Except String Resp :=
  Except.ok (Option.some sampleResp)

/-- Witness for C1 at a concrete market order and a concrete filled
response. -/
theorem C1_place_order_success_witness :
    buildParams sampleOrder Option.none = Except.ok sampleParams ∧
    sampleClient sampleParams = Except.ok (Option.some sampleResp) ∧
    getKey sampleResp "orderId" = Option.some (PyVal.str "123") ∧
    (place_order sampleClient sampleOrder Option.none =
        successEnvelope sampleResp ∧
      getKey (place_order sampleClient sampleOrder Option.none) "success" =
        Option.some (EVal.val (PyVal.bool true)) ∧
      getKey (place_order sampleClient sampleOrder Option.none) "orderId" =
        Option.some (EVal.val (PyVal.str "123")) ∧
      getKey (place_order sampleClient sampleOrder Option.none)
          "clientOrderId" =
        Option.some (EVal.val
          ((getKey sampleResp "clientOrderId").getD PyVal.none)) ∧
      getKey (place_order sampleClient sampleOrder Option.none) "status" =
        Option.some (EVal.val
          ((getKey sampleResp "status").getD (PyVal.str "NEW")))) :=
  ⟨rfl, rfl, rfl,
   C1_place_order_success sampleClient sampleOrder Option.none sampleParams
     sampleResp (PyVal.str "123") rfl rfl rfl⟩

/-- C4: whenever the client response lacks an order identifier (a `None`
response, an empty dict, or a dict without `orderId`), `place_order`
returns exactly the failure envelope with `error="Order placement
failed"` and `details` equal to the raw response. -/
theorem C4_place_order_failure
    (client : List (String × PyVal) → Except String Resp)
    (order_data : Dict) (sub_account_id : Option String)
    (ps : List (String × PyVal)) (r : Resp)
    (h1 : buildParams order_data sub_account_id = Except.ok ps)
    (h2 : client ps = Except.ok r)
    (h3 : r = Option.none ∨
      ∃ d, r = Option.some d ∧ getKey d "orderId" = Option.none) :
    place_order client order_data sub_account_id =
      [("success", EVal.val (PyVal.bool false)),
       ("error", EVal.val (PyVal.str "Order placement failed")),
       ("details", EVal.raw r)] := by
  have hro : respOk r = false := by
    rcases h3 with h3 | ⟨d, hd, hlook⟩
    · rw [h3]; rfl
    · rw [hd]; simp [respOk, hlook]
  simp [place_order, h1, h2, hro, placeFailEnvelope]

def sampleEmptyClient (_params : List (String × PyVal)) :
    Except String Resp :=
  Except.ok (Option.some [])

/-- Witness for C4 at a concrete order and a client returning the empty
dict. -/
theorem C4_place_order_failure_witness :
    buildParams sampleOrder Option.none = Except.ok sampleParams ∧
    sampleEmptyClient sampleParams = Except.ok (Option.some []) ∧
    (Option.some ([] : Dict) = Option.none ∨
      ∃ d, Option.some ([] : Dict) = Option.some d ∧
        getKey d "orderId" = Option.none) ∧
    place_order sampleEmptyClient sampleOrder Option.none =
      [("success", EVal.val (PyVal.bool false)),
       ("error", EVal.val (PyVal.str "Order placement failed")),
       ("details", EVal.raw (Option.some []))] :=
  ⟨rfl, rfl, Or.inr ⟨[], rfl, rfl⟩,
   C4_place_order_failure sampleEmptyClient sampleOrder Option.none
     sampleParams (Option.some []) rfl rfl (Or.inr ⟨[], rfl, rfl⟩)⟩

theorem keyErrorMsg_ne_empty (k : String) : keyErrorMsg k ≠ "" := by
  intro hk
  have hlen := congrArg String.length hk
  rw [keyErrorMsg, String.length_append, String.length_append,
    show sq.length = 1 from rfl,
    show ("" : String).length = 0 from rfl] at hlen
  omega

/-- C5: whenever any of the required fields `symbol`, `side`, `type`,
`quantity` is missing from the order request, `place_order` returns a
failure envelope (it never raises): `success=false` with a non-empty
error string (the stringified `KeyError`). -/
theorem C5_missing_required_field
    (client : List (String × PyVal) → Except String Resp)
    (order_data : Dict) (sub_account_id : Option String)
    (h : getKey order_data "symbol" = Option.none ∨
      getKey order_data "side" = Option.none ∨
      getKey order_data "type" = Option.none ∨
      getKey order_data "quantity" = Option.none) :
    getKey (place_order client order_data sub_account_id) "success" =
      Option.some (EVal.val (PyVal.bool false)) ∧
    ∃ e, getKey (place_order client order_data sub_account_id) "error" =
      Option.some (EVal.val (PyVal.str e)) ∧ e ≠ "" := by
  have hrq : ∃ k, requiredParams order_data =
      Except.error (keyErrorMsg k) := by
    cases h1 : getKey order_data "symbol" with
    | none => exact ⟨"symbol", by simp [requiredParams, h1]⟩
    | some sym =>
      cases h2 : getKey order_data "side" with
      | none => exact ⟨"side", by simp [requiredParams, h1, h2]⟩
      | some side =>
        cases h3 : getKey order_data "type" with
        | none => exact ⟨"type", by simp [requiredParams, h1, h2, h3]⟩
        | some ty =>
          cases h4 : getKey order_data "quantity" with
          | none =>
            exact ⟨"quantity", by simp [requiredParams, h1, h2, h3, h4]⟩
          | some qty =>
            exfalso; rcases h with h | h | h | h <;> simp_all
  obtain ⟨k, hk⟩ := hrq
  have hbp : buildParams order_data sub_account_id =
      Except.error (keyErrorMsg k) := by
    simp [buildParams, hk]
  refine ⟨?_, keyErrorMsg k, ?_, keyErrorMsg_ne_empty k⟩ <;>
    simp [place_order, hbp, exceptEnvelope, getKey]

def sampleNoSymbolOrder : Dict :=
  [("side", PyVal.str "BUY"), ("type", PyVal.str "MARKET"),
   ("quantity", PyVal.int 1)]

/-- Witness for C5 at a concrete order missing `symbol`. -/
theorem C5_missing_required_field_witness :
    (getKey sampleNoSymbolOrder "symbol" = Option.none ∨
      getKey sampleNoSymbolOrder "side" = Option.none ∨
      getKey sampleNoSymbolOrder "type" = Option.none ∨
      getKey sampleNoSymbolOrder "quantity" = Option.none) ∧
    (getKey (place_order sampleClient sampleNoSymbolOrder Option.none)
        "success" = Option.some (EVal.val (PyVal.bool false)) ∧
      ∃ e, getKey (place_order sampleClient sampleNoSymbolOrder Option.none)
        "error" = Option.some (EVal.val (PyVal.str e)) ∧ e ≠ "") :=
  ⟨Or.inl rfl,
   C5_missing_required_field sampleClient sampleNoSymbolOrder Option.none
     (Or.inl rfl)⟩

def reduceNullOrder : Dict :=
  [("symbol", PyVal.str "BTC-USDT"), ("side", PyVal.str "SELL"),
   ("type", PyVal.str "MARKET"), ("quantity", PyVal.int 1),
   ("reduceOnly", PyVal.none)]

def reduceNullParams : List (String × PyVal) :=
  [("symbol", PyVal.str "BTC-USDT"), ("side", PyVal.str "SELL"),
   ("type", PyVal.str "MARKET"), ("quantity", PyVal.str "1")]

/-- C2 fails as stated: a request that supplies `reduceOnly` with value
`None` has the field supplied and the resolved mode is not `hedge`, yet
no `reduceOnly` entry is passed to the exchange client (the source also
requires the supplied value to be non-`None`). -/
theorem C2_reduceOnly_counterexample :
    getKey reduceNullOrder "reduceOnly" = Option.some PyVal.none ∧
    get_position_mode Option.none ≠ "hedge" ∧
    buildParams reduceNullOrder Option.none = Except.ok reduceNullParams ∧
    getKey reduceNullParams "reduceOnly" = Option.none :=
  ⟨rfl, by decide, rfl, rfl⟩

/-- C2 (amended): the `reduceOnly` flag is included in the parameters
passed to the exchange client iff the request supplies a non-`None`
`reduceOnly` value and the resolved position mode is not `hedge`. -/
theorem C2_reduceOnly_forwarded_iff (order_data : Dict)
    (sub_account_id : Option String) (ps : List (String × PyVal))
    (h : buildParams order_data sub_account_id = Except.ok ps) :
    (∃ w, getKey ps "reduceOnly" = Option.some w) ↔
      ((∃ v, getKey order_data "reduceOnly" = Option.some v ∧
          v ≠ PyVal.none) ∧
        get_position_mode sub_account_id ≠ "hedge") := by
  have hchar := buildParams_reduceOnly _ _ _ h
  cases hv : getKey order_data "reduceOnly" with
  | none =>
    rw [hv] at hchar
    simp only [hchar]
    simp [hv]
  | some v =>
    rw [hv] at hchar
    by_cases hvn : v = PyVal.none
    · subst hvn
      simp only [hchar]
      simp [hv]
    · by_cases hm : get_position_mode sub_account_id = "hedge"
      · simp only [hchar]
        simp [hv, hvn, hm]
      · simp only [hchar]
        simp [hv, hvn, hm]

def reduceTrueOrder : Dict :=
  [("symbol", PyVal.str "BTC-USDT"), ("side", PyVal.str "SELL"),
   ("type", PyVal.str "MARKET"), ("quantity", PyVal.int 1),
   ("reduceOnly", PyVal.bool true)]

def reduceTrueParams : List (String × PyVal) :=
  [("symbol", PyVal.str "BTC-USDT"), ("side", PyVal.str "SELL"),
   ("type", PyVal.str "MARKET"), ("quantity", PyVal.str "1"),
   ("reduceOnly", PyVal.str "true")]

/-- Witness for the amended C2 at a concrete reduce-only market order. -/
theorem C2_reduceOnly_forwarded_iff_witness :
    buildParams reduceTrueOrder Option.none = Except.ok reduceTrueParams ∧
    ((∃ w, getKey reduceTrueParams "reduceOnly" = Option.some w) ↔
      ((∃ v, getKey reduceTrueOrder "reduceOnly" = Option.some v ∧
          v ≠ PyVal.none) ∧
        get_position_mode Option.none ≠ "hedge")) :=
  ⟨rfl,
   C2_reduceOnly_forwarded_iff reduceTrueOrder Option.none reduceTrueParams
     rfl⟩

/-- C10: when `reduceOnly` is forwarded it is sent as `str(value).lower()`
(so booleans become `"true"` / `"false"`); a supplied `False` is still
forwarded, and only a `None` value suppresses the flag. -/
theorem C10_reduceOnly_stringified (order_data : Dict)
    (sub_account_id : Option String) (ps : List (String × PyVal))
    (v : PyVal)
    (h : buildParams order_data sub_account_id = Except.ok ps)
    (hv : getKey order_data "reduceOnly" = Option.some v) :
    (v ≠ PyVal.none →
      getKey ps "reduceOnly" =
        Option.some (PyVal.str (pyLower (pyStr v)))) ∧
    (v = PyVal.none → getKey ps "reduceOnly" = Option.none) ∧
    pyLower (pyStr (PyVal.bool true)) = "true" ∧
    pyLower (pyStr (PyVal.bool false)) = "false" := by
  have hchar := buildParams_reduceOnly _ _ _ h
  simp only [hv] at hchar
  have hm : get_position_mode sub_account_id ≠ "hedge" := by
    intro he
    rw [show get_position_mode sub_account_id = "one-way" from rfl] at he
    exact absurd he (by decide)
  refine ⟨?_, ?_, by decide, by decide⟩
  · intro hvn
    rw [hchar, if_pos ⟨hvn, hm⟩]
  · intro hvn
    rw [hchar, if_neg (by simp [hvn])]

def reduceFalseOrder : Dict :=
  [("symbol", PyVal.str "BTC-USDT"), ("side", PyVal.str "SELL"),
   ("type", PyVal.str "MARKET"), ("quantity", PyVal.int 1),
   ("reduceOnly", PyVal.bool false)]

def reduceFalseParams : List (String × PyVal) :=
  [("symbol", PyVal.str "BTC-USDT"), ("side", PyVal.str "SELL"),
   ("type", PyVal.str "MARKET"), ("quantity", PyVal.str "1"),
   ("reduceOnly", PyVal.str "false")]

/-- Witness for C10 at a concrete order supplying `reduceOnly: false`,
which is still forwarded as `"false"`. -/
theorem C10_reduceOnly_stringified_witness :
    buildParams reduceFalseOrder Option.none = Except.ok reduceFalseParams ∧
    getKey reduceFalseOrder "reduceOnly" =
      Option.some (PyVal.bool false) ∧
    ((PyVal.bool false ≠ PyVal.none →
        getKey reduceFalseParams "reduceOnly" =
          Option.some (PyVal.str (pyLower (pyStr (PyVal.bool false))))) ∧
      (PyVal.bool false = PyVal.none →
        getKey reduceFalseParams "reduceOnly" = Option.none) ∧
      pyLower (pyStr (PyVal.bool true)) = "true" ∧
      pyLower (pyStr (PyVal.bool false)) = "false") :=
  ⟨rfl, rfl,
   C10_reduceOnly_stringified reduceFalseOrder Option.none reduceFalseParams
     (PyVal.bool false) rfl rfl⟩

/-- C7: whenever the cancel response lacks an order identifier (a `None`
response, the empty dict, or a dict without `orderId`), `cancel_order`
returns exactly the failure envelope with `error="Cancel failed"` and
`details` equal to the raw response. -/
theorem C7_cancel_failure (client : String → String → Except String Resp)
    (order_id symbol : String) (sub_account_id : Option String) (r : Resp)
    (h1 : client symbol order_id = Except.ok r)
    (h2 : r = Option.none ∨
      ∃ d, r = Option.some d ∧ getKey d "orderId" = Option.none) :
    cancel_order client order_id symbol sub_account_id =
      [("success", EVal.val (PyVal.bool false)),
       ("error", EVal.val (PyVal.str "Cancel failed")),
       ("details", EVal.raw r)] := by
  have hro : respOk r = false := by
    rcases h2 with h2 | ⟨d, hd, hlook⟩
    · rw [h2]; rfl
    · rw [hd]; simp [respOk, hlook]
  simp [cancel_order, h1, hro, cancelFailEnvelope]

def emptyCancelClient (_symbol _order_id : String) : Except String Resp :=
  Except.ok (Option.some [])

/-- Witness for C7 at `cancel_order("123", "BTC-USDT")` against a client
stub returning the empty dict, yielding exactly
`{success: false, error: "Cancel failed", details: {}}`. -/
theorem C7_cancel_failure_witness :
    emptyCancelClient "BTC-USDT" "123" = Except.ok (Option.some []) ∧
    (Option.some ([] : Dict) = Option.none ∨
      ∃ d, Option.some ([] : Dict) = Option.some d ∧
        getKey d "orderId" = Option.none) ∧
    cancel_order emptyCancelClient "123" "BTC-USDT" Option.none =
      [("success", EVal.val (PyVal.bool false)),
       ("error", EVal.val (PyVal.str "Cancel failed")),
       ("details", EVal.raw (Option.some []))] :=
  ⟨rfl, Or.inr ⟨[], rfl, rfl⟩,
   C7_cancel_failure emptyCancelClient "123" "BTC-USDT" Option.none
     (Option.some []) rfl (Or.inr ⟨[], rfl, rfl⟩)⟩

/-- C8: every call to `place_order` and to `cancel_order` returns one
terminal envelope containing exactly one `success` entry, whose value is
the boolean `true` or `false`; both functions are total, so neither ever
raises to its caller. -/
theorem C8_exactly_one_terminal_result
    (pclient : List (String × PyVal) → Except String Resp)
    (order_data : Dict) (sub_account_id : Option String)
    (cclient : String → String → Except String Resp)
    (order_id symbol : String) (sub2 : Option String) :
    (countKey (place_order pclient order_data sub_account_id) "success" = 1 ∧
      (getKey (place_order pclient order_data sub_account_id) "success" =
        Option.some (EVal.val (PyVal.bool true)) ∨
       getKey (place_order pclient order_data sub_account_id) "success" =
        Option.some (EVal.val (PyVal.bool false)))) ∧
    (countKey (cancel_order cclient order_id symbol sub2) "success" = 1 ∧
      (getKey (cancel_order cclient order_id symbol sub2) "success" =
        Option.some (EVal.val (PyVal.bool true)) ∨
       getKey (cancel_order cclient order_id symbol sub2) "success" =
        Option.some (EVal.val (PyVal.bool false)))) := by
  constructor
  · cases hbp : buildParams order_data sub_account_id with
    | error e =>
      simp only [place_order, hbp]
      exact ⟨rfl, Or.inr rfl⟩
    | ok ps =>
      cases hc : pclient ps with
      | error e =>
        simp only [place_order, hbp, hc]
        exact ⟨rfl, Or.inr rfl⟩
      | ok r =>
        cases hr : respOk r with
        | true =>
          simp only [place_order, hbp, hc, hr, if_true]
          exact ⟨rfl, Or.inl rfl⟩
        | false =>
          simp only [place_order, hbp, hc, hr, Bool.false_eq_true,
            if_false]
          exact ⟨rfl, Or.inr rfl⟩
  · cases hc : cclient symbol order_id with
    | error e =>
      simp only [cancel_order, hc]
      exact ⟨rfl, Or.inr rfl⟩
    | ok r =>
      cases hr : respOk r with
      | true =>
        simp only [cancel_order, hc, hr, if_true]
        exact ⟨rfl, Or.inl rfl⟩
      | false =>
        simp only [cancel_order, hc, hr, Bool.false_eq_true, if_false]
        exact ⟨rfl, Or.inr rfl⟩

/-- C9: a present-but-falsy optional field among `price`, `stopPrice`,
`positionSide`, `workingType`, `clientOrderId` is silently omitted from
the parameters sent to the exchange client; the final conjuncts record
that numeric zero, the empty string, `False` and `None` are exactly such
falsy values (so a price of `0` is never transmitted). -/
theorem C9_falsy_optional_fields_omitted (order_data : Dict)
    (sub_account_id : Option String) (ps : List (String × PyVal))
    (h : buildParams order_data sub_account_id = Except.ok ps) :
    ((∀ v, getKey order_data "price" = Option.some v → truthy v = false →
       getKey ps "price" = Option.none) ∧
     (∀ v, getKey order_data "stopPrice" = Option.some v →
       truthy v = false → getKey ps "stopPrice" = Option.none) ∧
     (∀ v, getKey order_data "positionSide" = Option.some v →
       truthy v = false → getKey ps "positionSide" = Option.none) ∧
     (∀ v, getKey order_data "workingType" = Option.some v →
       truthy v = false → getKey ps "workingType" = Option.none) ∧
     (∀ v, getKey order_data "clientOrderId" = Option.some v →
       truthy v = false → getKey ps "newClientOrderId" = Option.none)) ∧
    truthy (PyVal.int 0) = false ∧ truthy (PyVal.str "") = false ∧
    truthy (PyVal.bool false) = false ∧ truthy PyVal.none = false :=
  ⟨buildParams_falsy_omitted order_data sub_account_id ps h,
   rfl, rfl, rfl, rfl⟩

def zeroPriceOrder : Dict :=
  [("symbol", PyVal.str "BTC-USDT"), ("side", PyVal.str "BUY"),
   ("type", PyVal.str "LIMIT"), ("quantity", PyVal.int 1),
   ("price", PyVal.int 0), ("clientOrderId", PyVal.str "")]

def zeroPriceParams : List (String × PyVal) :=
  [("symbol", PyVal.str "BTC-USDT"), ("side", PyVal.str "BUY"),
   ("type", PyVal.str "LIMIT"), ("quantity", PyVal.str "1")]

/-- Witness for C9 at a concrete order with `price: 0` and an empty
`clientOrderId`: neither reaches the client parameters. -/
theorem C9_falsy_optional_fields_omitted_witness :
    buildParams zeroPriceOrder Option.none = Except.ok zeroPriceParams ∧
    getKey zeroPriceOrder "price" = Option.some (PyVal.int 0) ∧
    (((∀ v, getKey zeroPriceOrder "price" = Option.some v →
         truthy v = false → getKey zeroPriceParams "price" = Option.none) ∧
       (∀ v, getKey zeroPriceOrder "stopPrice" = Option.some v →
         truthy v = false →
         getKey zeroPriceParams "stopPrice" = Option.none) ∧
       (∀ v, getKey zeroPriceOrder "positionSide" = Option.some v →
         truthy v = false →
         getKey zeroPriceParams "positionSide" = Option.none) ∧
       (∀ v, getKey zeroPriceOrder "workingType" = Option.some v →
         truthy v = false →
         getKey zeroPriceParams "workingType" = Option.none) ∧
       (∀ v, getKey zeroPriceOrder "clientOrderId" = Option.some v →
         truthy v = false →
         getKey zeroPriceParams "newClientOrderId" = Option.none)) ∧
      truthy (PyVal.int 0) = false ∧ truthy (PyVal.str "") = false ∧
      truthy (PyVal.bool false) = false ∧ truthy PyVal.none = false) :=
  ⟨rfl, rfl,
   C9_falsy_optional_fields_omitted zeroPriceOrder Option.none
     zeroPriceParams rfl⟩

def badJsonLoads (_s : String) : Except String Dict :=
  Except.error "Expecting value: line 1 column 1 (char 0)"

def sampleCancelClient (_symbol _order_id : String) : Except String Resp :=
  Except.ok (Option.some
    [("orderId", PyVal.str "123"), ("status", PyVal.str "CANCELED")])

/-- C3 fails as stated: a malformed JSON payload given to the
`place_order` CLI command does not collapse to a failure envelope —
`json.loads` runs in `main` outside any `try`, so its error is raised
out of the dispatcher (no printed envelope, no usage exit). -/
theorem C3_malformed_json_counterexample :
    main_run sampleClient sampleCancelClient badJsonLoads
        ["python_order_service.py", "place_order", "not valid json"] =
      CliOutcome.raised "Expecting value: line 1 column 1 (char 0)" ∧
    isPrinted (main_run sampleClient sampleCancelClient badJsonLoads
      ["python_order_service.py", "place_order", "not valid json"]) =
        false ∧
    isUsage (main_run sampleClient sampleCancelClient badJsonLoads
      ["python_order_service.py", "place_order", "not valid json"]) =
        false :=
  ⟨rfl, rfl, rfl⟩

/-- C3 (amended): failures inside the order logic collapse to the
`success=false` envelope, so the dispatcher only ever prints envelopes
for well-formed invocations and never observes a raised fault from order
logic; but a malformed JSON payload to the `place_order` command raises
`json.loads`'s error out of the dispatcher itself, uncaught. -/
theorem C3_error_boundary
    (pc : List (String × PyVal) → Except String Resp)
    (cc : String → String → Except String Resp)
    (jl : String → Except String Dict)
    (prog payload order_id symbol : String) (rest : List String) :
    (∀ e, jl payload = Except.error e →
      main_run pc cc jl (prog :: "place_order" :: payload :: rest) =
        CliOutcome.raised e) ∧
    (∀ order_data, jl payload = Except.ok order_data →
      main_run pc cc jl (prog :: "place_order" :: payload :: rest) =
        CliOutcome.printed (place_order pc order_data Option.none)) ∧
    (main_run pc cc jl
        (prog :: "cancel_order" :: order_id :: symbol :: rest) =
      CliOutcome.printed (cancel_order cc order_id symbol Option.none)) ∧
    (∀ order_data sub ps e, buildParams order_data sub = Except.ok ps →
      pc ps = Except.error e →
      place_order pc order_data sub = exceptEnvelope e) ∧
    (∀ sub e, cc symbol order_id = Except.error e →
      cancel_order cc order_id symbol sub = exceptEnvelope e) := by
  refine ⟨?_, ?_, ?_, ?_, ?_⟩
  · intro e he
    simp [main_run, he]
  · intro order_data ho
    simp [main_run, ho]
  · simp [main_run]
  · intro order_data sub ps e hbp hc
    simp [place_order, hbp, hc]
  · intro sub e hc
    simp [cancel_order, hc]

def okJsonLoads (_s : String) : Except String Dict :=
  Except.ok
    [("symbol", PyVal.str "BTC-USDT"), ("side", PyVal.str "BUY"),
     ("type", PyVal.str "MARKET"), ("quantity", PyVal.int 1)]

def raisingClient (_params : List (String × PyVal)) : Except String Resp :=
  Except.error "Connection reset by peer"

def raisingCancelClient (_symbol _order_id : String) :
    Except String Resp :=
  Except.error "Connection reset by peer"

/-- Witness for the amended C3: the malformed-JSON branch raises, the
well-formed branch prints, and client exceptions collapse to the
envelope. -/
theorem C3_error_boundary_witness :
    badJsonLoads "bad" =
      Except.error "Expecting value: line 1 column 1 (char 0)" ∧
    main_run raisingClient raisingCancelClient badJsonLoads
        ["prog", "place_order", "bad"] =
      CliOutcome.raised "Expecting value: line 1 column 1 (char 0)" ∧
    main_run raisingClient raisingCancelClient okJsonLoads
        ["prog", "place_order", "ok"] =
      CliOutcome.printed
        (place_order raisingClient
          [("symbol", PyVal.str "BTC-USDT"), ("side", PyVal.str "BUY"),
           ("type", PyVal.str "MARKET"), ("quantity", PyVal.int 1)]
          Option.none) ∧
    main_run raisingClient raisingCancelClient okJsonLoads
        ["prog", "cancel_order", "123", "BTC-USDT"] =
      CliOutcome.printed
        (cancel_order raisingCancelClient "123" "BTC-USDT" Option.none) ∧
    place_order raisingClient
        [("symbol", PyVal.str "BTC-USDT"), ("side", PyVal.str "BUY"),
         ("type", PyVal.str "MARKET"), ("quantity", PyVal.int 1)]
        Option.none =
      exceptEnvelope "Connection reset by peer" ∧
    cancel_order raisingCancelClient "123" "BTC-USDT" Option.none =
      exceptEnvelope "Connection reset by peer" :=
  ⟨rfl,
   (C3_error_boundary raisingClient raisingCancelClient badJsonLoads
      "prog" "bad" "123" "BTC-USDT" []).1 _ rfl,
   (C3_error_boundary raisingClient raisingCancelClient okJsonLoads
      "prog" "ok" "123" "BTC-USDT" []).2.1 _ rfl,
   (C3_error_boundary raisingClient raisingCancelClient okJsonLoads
      "prog" "ok" "123" "BTC-USDT" []).2.2.1,
   (C3_error_boundary raisingClient raisingCancelClient okJsonLoads
      "prog" "ok" "123" "BTC-USDT" []).2.2.2.1 _ Option.none
     [("symbol", PyVal.str "BTC-USDT"), ("side", PyVal.str "BUY"),
      ("type", PyVal.str "MARKET"), ("quantity", PyVal.str "1")] _ rfl rfl,
   (C3_error_boundary raisingClient raisingCancelClient okJsonLoads
      "prog" "ok" "123" "BTC-USDT" []).2.2.2.2 Option.none _ rfl⟩

end OrderService
